import Mathlib

/-!
Verification of the `htpasswd-verify` crate (`src/lib.rs` plus its `md5`
module).

Modelling conventions:

* Strings are modelled as Lean `String`s and handled through their character
  lists (`String.data`).  The byte indices used by the Rust source coincide
  with character indices on ASCII data, which is the domain of every marker
  and salt involved.
* A byte is a `Nat` below 256; a byte string is packed little-endian into a
  single `Nat` (first byte in the lowest 8 bits) with its length carried
  separately, so that the digest loops reduce to kernel-evaluable arithmetic.
  32-bit machine words are `Nat`s with wrap-around made explicit by
  `% 4294967296`.
* A Rust panic (out-of-range slice, `.unwrap()` on `Err`) is modelled as the
  `none` case of an `Option` result.
* The delegated externals `bcrypt::verify` and `pwhash::unix_crypt::verify`
  are opaque parameters (`Primitives`); the `crypto` crate's one-shot SHA-1
  and the `base64` crate's `encode` are modelled concretely by the standard
  algorithms (RFC 3174 / RFC 4648) they implement.
* The crate's `md5` module (declared by `pub mod md5;`) is not present in the
  sources; its functions are modelled from the specification, §4.2.
-/

set_option maxRecDepth 100000
set_option maxHeartbeats 12000000

/-- Strictness helper that keeps kernel evaluation of the digest loops
iterative: `cond` on an accelerated `Nat.beq` forces `n` to a literal before
returning `x` (both branches are `x`, so the value is unchanged). -/
def strictPass (n : Nat) (x : α) : α := cond (Nat.beq (n % 2) 0) x x

/-- Bytes of a string, one `Nat` per character (ASCII: identical to the UTF-8
bytes the Rust source hashes). -/
def strBytes (s : String) : List Nat := s.data.map Char.toNat

/-- Little-endian unpacking: the `k` low bytes of `v`. -/
def natToBytesLE : Nat → Nat → List Nat
  | 0, _ => []
  | k + 1, v => v % 256 :: natToBytesLE k (v / 256)

/-- Big-endian unpacking: the `k` low bytes of `v`, most significant first. -/
def natToBytesBE (k v : Nat) : List Nat := (natToBytesLE k v).reverse

/-- Pack a byte list little-endian into one `Nat` (first byte lowest). -/
def packBytes : List Nat → Nat
  | [] => 0
  | b :: bs => b % 256 + 256 * packBytes bs

/-- Concatenation of packed byte strings: `a` (of length `la` bytes) followed
by `b`. -/
def catBytes (a la b : Nat) : Nat := a + Nat.shiftLeft b (8 * la)

/-- MD5 initial state `(A, B, C, D) = (0x67452301, 0xefcdab89, 0x98badcfe,
0x10325476)` packed as `A + B*2^32 + C*2^64 + D*2^96`. -/
def md5InitS : Nat := 21528975894082904090066538856997790465
/-- Steps 0 to 15 of the MD5 compression function (RFC 1321), unrolled;
`S` is the packed state `a + b*2^32 + c*2^64 + d*2^96`, `M` the packed block. -/
def md5Round1 (S M : Nat) : Nat :=
  let a0 := Nat.land S 4294967295
  let b0 := Nat.land (Nat.shiftRight S 32) 4294967295
  let c0 := Nat.land (Nat.shiftRight S 64) 4294967295
  let d0 := Nat.land (Nat.shiftRight S 96) 4294967295
  let t0 := (a0 + (Nat.lor (Nat.land b0 c0) (Nat.land (Nat.xor b0 4294967295) d0)) + 3614090360 + (Nat.land M 4294967295)) % 4294967296
  let v0 := (b0 + Nat.lor (Nat.land (Nat.shiftLeft t0 7) 4294967295) (Nat.shiftRight t0 25)) % 4294967296
  let t1 := (d0 + (Nat.lor (Nat.land v0 b0) (Nat.land (Nat.xor v0 4294967295) c0)) + 3905402710 + (Nat.land (Nat.shiftRight M 32) 4294967295)) % 4294967296
  let v1 := (v0 + Nat.lor (Nat.land (Nat.shiftLeft t1 12) 4294967295) (Nat.shiftRight t1 20)) % 4294967296
  let t2 := (c0 + (Nat.lor (Nat.land v1 v0) (Nat.land (Nat.xor v1 4294967295) b0)) + 606105819 + (Nat.land (Nat.shiftRight M 64) 4294967295)) % 4294967296
  let v2 := (v1 + Nat.lor (Nat.land (Nat.shiftLeft t2 17) 4294967295) (Nat.shiftRight t2 15)) % 4294967296
  let t3 := (b0 + (Nat.lor (Nat.land v2 v1) (Nat.land (Nat.xor v2 4294967295) v0)) + 3250441966 + (Nat.land (Nat.shiftRight M 96) 4294967295)) % 4294967296
  let v3 := (v2 + Nat.lor (Nat.land (Nat.shiftLeft t3 22) 4294967295) (Nat.shiftRight t3 10)) % 4294967296
  let t4 := (v0 + (Nat.lor (Nat.land v3 v2) (Nat.land (Nat.xor v3 4294967295) v1)) + 4118548399 + (Nat.land (Nat.shiftRight M 128) 4294967295)) % 4294967296
  let v4 := (v3 + Nat.lor (Nat.land (Nat.shiftLeft t4 7) 4294967295) (Nat.shiftRight t4 25)) % 4294967296
  let t5 := (v1 + (Nat.lor (Nat.land v4 v3) (Nat.land (Nat.xor v4 4294967295) v2)) + 1200080426 + (Nat.land (Nat.shiftRight M 160) 4294967295)) % 4294967296
  let v5 := (v4 + Nat.lor (Nat.land (Nat.shiftLeft t5 12) 4294967295) (Nat.shiftRight t5 20)) % 4294967296
  let t6 := (v2 + (Nat.lor (Nat.land v5 v4) (Nat.land (Nat.xor v5 4294967295) v3)) + 2821735955 + (Nat.land (Nat.shiftRight M 192) 4294967295)) % 4294967296
  let v6 := (v5 + Nat.lor (Nat.land (Nat.shiftLeft t6 17) 4294967295) (Nat.shiftRight t6 15)) % 4294967296
  let t7 := (v3 + (Nat.lor (Nat.land v6 v5) (Nat.land (Nat.xor v6 4294967295) v4)) + 4249261313 + (Nat.land (Nat.shiftRight M 224) 4294967295)) % 4294967296
  let v7 := (v6 + Nat.lor (Nat.land (Nat.shiftLeft t7 22) 4294967295) (Nat.shiftRight t7 10)) % 4294967296
  let t8 := (v4 + (Nat.lor (Nat.land v7 v6) (Nat.land (Nat.xor v7 4294967295) v5)) + 1770035416 + (Nat.land (Nat.shiftRight M 256) 4294967295)) % 4294967296
  let v8 := (v7 + Nat.lor (Nat.land (Nat.shiftLeft t8 7) 4294967295) (Nat.shiftRight t8 25)) % 4294967296
  let t9 := (v5 + (Nat.lor (Nat.land v8 v7) (Nat.land (Nat.xor v8 4294967295) v6)) + 2336552879 + (Nat.land (Nat.shiftRight M 288) 4294967295)) % 4294967296
  let v9 := (v8 + Nat.lor (Nat.land (Nat.shiftLeft t9 12) 4294967295) (Nat.shiftRight t9 20)) % 4294967296
  let t10 := (v6 + (Nat.lor (Nat.land v9 v8) (Nat.land (Nat.xor v9 4294967295) v7)) + 4294925233 + (Nat.land (Nat.shiftRight M 320) 4294967295)) % 4294967296
  let v10 := (v9 + Nat.lor (Nat.land (Nat.shiftLeft t10 17) 4294967295) (Nat.shiftRight t10 15)) % 4294967296
  let t11 := (v7 + (Nat.lor (Nat.land v10 v9) (Nat.land (Nat.xor v10 4294967295) v8)) + 2304563134 + (Nat.land (Nat.shiftRight M 352) 4294967295)) % 4294967296
  let v11 := (v10 + Nat.lor (Nat.land (Nat.shiftLeft t11 22) 4294967295) (Nat.shiftRight t11 10)) % 4294967296
  let t12 := (v8 + (Nat.lor (Nat.land v11 v10) (Nat.land (Nat.xor v11 4294967295) v9)) + 1804603682 + (Nat.land (Nat.shiftRight M 384) 4294967295)) % 4294967296
  let v12 := (v11 + Nat.lor (Nat.land (Nat.shiftLeft t12 7) 4294967295) (Nat.shiftRight t12 25)) % 4294967296
  let t13 := (v9 + (Nat.lor (Nat.land v12 v11) (Nat.land (Nat.xor v12 4294967295) v10)) + 4254626195 + (Nat.land (Nat.shiftRight M 416) 4294967295)) % 4294967296
  let v13 := (v12 + Nat.lor (Nat.land (Nat.shiftLeft t13 12) 4294967295) (Nat.shiftRight t13 20)) % 4294967296
  let t14 := (v10 + (Nat.lor (Nat.land v13 v12) (Nat.land (Nat.xor v13 4294967295) v11)) + 2792965006 + (Nat.land (Nat.shiftRight M 448) 4294967295)) % 4294967296
  let v14 := (v13 + Nat.lor (Nat.land (Nat.shiftLeft t14 17) 4294967295) (Nat.shiftRight t14 15)) % 4294967296
  let t15 := (v11 + (Nat.lor (Nat.land v14 v13) (Nat.land (Nat.xor v14 4294967295) v12)) + 1236535329 + (Nat.land (Nat.shiftRight M 480) 4294967295)) % 4294967296
  let v15 := (v14 + Nat.lor (Nat.land (Nat.shiftLeft t15 22) 4294967295) (Nat.shiftRight t15 10)) % 4294967296
  v12 + 4294967296 * (v15 + 4294967296 * (v14 + 4294967296 * v13))

/-- Steps 16 to 31 of the MD5 compression function (RFC 1321), unrolled;
`S` is the packed state `a + b*2^32 + c*2^64 + d*2^96`, `M` the packed block. -/
def md5Round2 (S M : Nat) : Nat :=
  let a0 := Nat.land S 4294967295
  let b0 := Nat.land (Nat.shiftRight S 32) 4294967295
  let c0 := Nat.land (Nat.shiftRight S 64) 4294967295
  let d0 := Nat.land (Nat.shiftRight S 96) 4294967295
  let t16 := (a0 + (Nat.lor (Nat.land d0 b0) (Nat.land (Nat.xor d0 4294967295) c0)) + 4129170786 + (Nat.land (Nat.shiftRight M 32) 4294967295)) % 4294967296
  let v16 := (b0 + Nat.lor (Nat.land (Nat.shiftLeft t16 5) 4294967295) (Nat.shiftRight t16 27)) % 4294967296
  let t17 := (d0 + (Nat.lor (Nat.land c0 v16) (Nat.land (Nat.xor c0 4294967295) b0)) + 3225465664 + (Nat.land (Nat.shiftRight M 192) 4294967295)) % 4294967296
  let v17 := (v16 + Nat.lor (Nat.land (Nat.shiftLeft t17 9) 4294967295) (Nat.shiftRight t17 23)) % 4294967296
  let t18 := (c0 + (Nat.lor (Nat.land b0 v17) (Nat.land (Nat.xor b0 4294967295) v16)) + 643717713 + (Nat.land (Nat.shiftRight M 352) 4294967295)) % 4294967296
  let v18 := (v17 + Nat.lor (Nat.land (Nat.shiftLeft t18 14) 4294967295) (Nat.shiftRight t18 18)) % 4294967296
  let t19 := (b0 + (Nat.lor (Nat.land v16 v18) (Nat.land (Nat.xor v16 4294967295) v17)) + 3921069994 + (Nat.land M 4294967295)) % 4294967296
  let v19 := (v18 + Nat.lor (Nat.land (Nat.shiftLeft t19 20) 4294967295) (Nat.shiftRight t19 12)) % 4294967296
  let t20 := (v16 + (Nat.lor (Nat.land v17 v19) (Nat.land (Nat.xor v17 4294967295) v18)) + 3593408605 + (Nat.land (Nat.shiftRight M 160) 4294967295)) % 4294967296
  let v20 := (v19 + Nat.lor (Nat.land (Nat.shiftLeft t20 5) 4294967295) (Nat.shiftRight t20 27)) % 4294967296
  let t21 := (v17 + (Nat.lor (Nat.land v18 v20) (Nat.land (Nat.xor v18 4294967295) v19)) + 38016083 + (Nat.land (Nat.shiftRight M 320) 4294967295)) % 4294967296
  let v21 := (v20 + Nat.lor (Nat.land (Nat.shiftLeft t21 9) 4294967295) (Nat.shiftRight t21 23)) % 4294967296
  let t22 := (v18 + (Nat.lor (Nat.land v19 v21) (Nat.land (Nat.xor v19 4294967295) v20)) + 3634488961 + (Nat.land (Nat.shiftRight M 480) 4294967295)) % 4294967296
  let v22 := (v21 + Nat.lor (Nat.land (Nat.shiftLeft t22 14) 4294967295) (Nat.shiftRight t22 18)) % 4294967296
  let t23 := (v19 + (Nat.lor (Nat.land v20 v22) (Nat.land (Nat.xor v20 4294967295) v21)) + 3889429448 + (Nat.land (Nat.shiftRight M 128) 4294967295)) % 4294967296
  let v23 := (v22 + Nat.lor (Nat.land (Nat.shiftLeft t23 20) 4294967295) (Nat.shiftRight t23 12)) % 4294967296
  let t24 := (v20 + (Nat.lor (Nat.land v21 v23) (Nat.land (Nat.xor v21 4294967295) v22)) + 568446438 + (Nat.land (Nat.shiftRight M 288) 4294967295)) % 4294967296
  let v24 := (v23 + Nat.lor (Nat.land (Nat.shiftLeft t24 5) 4294967295) (Nat.shiftRight t24 27)) % 4294967296
  let t25 := (v21 + (Nat.lor (Nat.land v22 v24) (Nat.land (Nat.xor v22 4294967295) v23)) + 3275163606 + (Nat.land (Nat.shiftRight M 448) 4294967295)) % 4294967296
  let v25 := (v24 + Nat.lor (Nat.land (Nat.shiftLeft t25 9) 4294967295) (Nat.shiftRight t25 23)) % 4294967296
  let t26 := (v22 + (Nat.lor (Nat.land v23 v25) (Nat.land (Nat.xor v23 4294967295) v24)) + 4107603335 + (Nat.land (Nat.shiftRight M 96) 4294967295)) % 4294967296
  let v26 := (v25 + Nat.lor (Nat.land (Nat.shiftLeft t26 14) 4294967295) (Nat.shiftRight t26 18)) % 4294967296
  let t27 := (v23 + (Nat.lor (Nat.land v24 v26) (Nat.land (Nat.xor v24 4294967295) v25)) + 1163531501 + (Nat.land (Nat.shiftRight M 256) 4294967295)) % 4294967296
  let v27 := (v26 + Nat.lor (Nat.land (Nat.shiftLeft t27 20) 4294967295) (Nat.shiftRight t27 12)) % 4294967296
  let t28 := (v24 + (Nat.lor (Nat.land v25 v27) (Nat.land (Nat.xor v25 4294967295) v26)) + 2850285829 + (Nat.land (Nat.shiftRight M 416) 4294967295)) % 4294967296
  let v28 := (v27 + Nat.lor (Nat.land (Nat.shiftLeft t28 5) 4294967295) (Nat.shiftRight t28 27)) % 4294967296
  let t29 := (v25 + (Nat.lor (Nat.land v26 v28) (Nat.land (Nat.xor v26 4294967295) v27)) + 4243563512 + (Nat.land (Nat.shiftRight M 64) 4294967295)) % 4294967296
  let v29 := (v28 + Nat.lor (Nat.land (Nat.shiftLeft t29 9) 4294967295) (Nat.shiftRight t29 23)) % 4294967296
  let t30 := (v26 + (Nat.lor (Nat.land v27 v29) (Nat.land (Nat.xor v27 4294967295) v28)) + 1735328473 + (Nat.land (Nat.shiftRight M 224) 4294967295)) % 4294967296
  let v30 := (v29 + Nat.lor (Nat.land (Nat.shiftLeft t30 14) 4294967295) (Nat.shiftRight t30 18)) % 4294967296
  let t31 := (v27 + (Nat.lor (Nat.land v28 v30) (Nat.land (Nat.xor v28 4294967295) v29)) + 2368359562 + (Nat.land (Nat.shiftRight M 384) 4294967295)) % 4294967296
  let v31 := (v30 + Nat.lor (Nat.land (Nat.shiftLeft t31 20) 4294967295) (Nat.shiftRight t31 12)) % 4294967296
  v28 + 4294967296 * (v31 + 4294967296 * (v30 + 4294967296 * v29))

/-- Steps 32 to 47 of the MD5 compression function (RFC 1321), unrolled;
`S` is the packed state `a + b*2^32 + c*2^64 + d*2^96`, `M` the packed block. -/
def md5Round3 (S M : Nat) : Nat :=
  let a0 := Nat.land S 4294967295
  let b0 := Nat.land (Nat.shiftRight S 32) 4294967295
  let c0 := Nat.land (Nat.shiftRight S 64) 4294967295
  let d0 := Nat.land (Nat.shiftRight S 96) 4294967295
  let t32 := (a0 + (Nat.xor b0 (Nat.xor c0 d0)) + 4294588738 + (Nat.land (Nat.shiftRight M 160) 4294967295)) % 4294967296
  let v32 := (b0 + Nat.lor (Nat.land (Nat.shiftLeft t32 4) 4294967295) (Nat.shiftRight t32 28)) % 4294967296
  let t33 := (d0 + (Nat.xor v32 (Nat.xor b0 c0)) + 2272392833 + (Nat.land (Nat.shiftRight M 256) 4294967295)) % 4294967296
  let v33 := (v32 + Nat.lor (Nat.land (Nat.shiftLeft t33 11) 4294967295) (Nat.shiftRight t33 21)) % 4294967296
  let t34 := (c0 + (Nat.xor v33 (Nat.xor v32 b0)) + 1839030562 + (Nat.land (Nat.shiftRight M 352) 4294967295)) % 4294967296
  let v34 := (v33 + Nat.lor (Nat.land (Nat.shiftLeft t34 16) 4294967295) (Nat.shiftRight t34 16)) % 4294967296
  let t35 := (b0 + (Nat.xor v34 (Nat.xor v33 v32)) + 4259657740 + (Nat.land (Nat.shiftRight M 448) 4294967295)) % 4294967296
  let v35 := (v34 + Nat.lor (Nat.land (Nat.shiftLeft t35 23) 4294967295) (Nat.shiftRight t35 9)) % 4294967296
  let t36 := (v32 + (Nat.xor v35 (Nat.xor v34 v33)) + 2763975236 + (Nat.land (Nat.shiftRight M 32) 4294967295)) % 4294967296
  let v36 := (v35 + Nat.lor (Nat.land (Nat.shiftLeft t36 4) 4294967295) (Nat.shiftRight t36 28)) % 4294967296
  let t37 := (v33 + (Nat.xor v36 (Nat.xor v35 v34)) + 1272893353 + (Nat.land (Nat.shiftRight M 128) 4294967295)) % 4294967296
  let v37 := (v36 + Nat.lor (Nat.land (Nat.shiftLeft t37 11) 4294967295) (Nat.shiftRight t37 21)) % 4294967296
  let t38 := (v34 + (Nat.xor v37 (Nat.xor v36 v35)) + 4139469664 + (Nat.land (Nat.shiftRight M 224) 4294967295)) % 4294967296
  let v38 := (v37 + Nat.lor (Nat.land (Nat.shiftLeft t38 16) 4294967295) (Nat.shiftRight t38 16)) % 4294967296
  let t39 := (v35 + (Nat.xor v38 (Nat.xor v37 v36)) + 3200236656 + (Nat.land (Nat.shiftRight M 320) 4294967295)) % 4294967296
  let v39 := (v38 + Nat.lor (Nat.land (Nat.shiftLeft t39 23) 4294967295) (Nat.shiftRight t39 9)) % 4294967296
  let t40 := (v36 + (Nat.xor v39 (Nat.xor v38 v37)) + 681279174 + (Nat.land (Nat.shiftRight M 416) 4294967295)) % 4294967296
  let v40 := (v39 + Nat.lor (Nat.land (Nat.shiftLeft t40 4) 4294967295) (Nat.shiftRight t40 28)) % 4294967296
  let t41 := (v37 + (Nat.xor v40 (Nat.xor v39 v38)) + 3936430074 + (Nat.land M 4294967295)) % 4294967296
  let v41 := (v40 + Nat.lor (Nat.land (Nat.shiftLeft t41 11) 4294967295) (Nat.shiftRight t41 21)) % 4294967296
  let t42 := (v38 + (Nat.xor v41 (Nat.xor v40 v39)) + 3572445317 + (Nat.land (Nat.shiftRight M 96) 4294967295)) % 4294967296
  let v42 := (v41 + Nat.lor (Nat.land (Nat.shiftLeft t42 16) 4294967295) (Nat.shiftRight t42 16)) % 4294967296
  let t43 := (v39 + (Nat.xor v42 (Nat.xor v41 v40)) + 76029189 + (Nat.land (Nat.shiftRight M 192) 4294967295)) % 4294967296
  let v43 := (v42 + Nat.lor (Nat.land (Nat.shiftLeft t43 23) 4294967295) (Nat.shiftRight t43 9)) % 4294967296
  let t44 := (v40 + (Nat.xor v43 (Nat.xor v42 v41)) + 3654602809 + (Nat.land (Nat.shiftRight M 288) 4294967295)) % 4294967296
  let v44 := (v43 + Nat.lor (Nat.land (Nat.shiftLeft t44 4) 4294967295) (Nat.shiftRight t44 28)) % 4294967296
  let t45 := (v41 + (Nat.xor v44 (Nat.xor v43 v42)) + 3873151461 + (Nat.land (Nat.shiftRight M 384) 4294967295)) % 4294967296
  let v45 := (v44 + Nat.lor (Nat.land (Nat.shiftLeft t45 11) 4294967295) (Nat.shiftRight t45 21)) % 4294967296
  let t46 := (v42 + (Nat.xor v45 (Nat.xor v44 v43)) + 530742520 + (Nat.land (Nat.shiftRight M 480) 4294967295)) % 4294967296
  let v46 := (v45 + Nat.lor (Nat.land (Nat.shiftLeft t46 16) 4294967295) (Nat.shiftRight t46 16)) % 4294967296
  let t47 := (v43 + (Nat.xor v46 (Nat.xor v45 v44)) + 3299628645 + (Nat.land (Nat.shiftRight M 64) 4294967295)) % 4294967296
  let v47 := (v46 + Nat.lor (Nat.land (Nat.shiftLeft t47 23) 4294967295) (Nat.shiftRight t47 9)) % 4294967296
  v44 + 4294967296 * (v47 + 4294967296 * (v46 + 4294967296 * v45))

/-- Steps 48 to 63 of the MD5 compression function (RFC 1321), unrolled;
`S` is the packed state `a + b*2^32 + c*2^64 + d*2^96`, `M` the packed block. -/
def md5Round4 (S M : Nat) : Nat :=
  let a0 := Nat.land S 4294967295
  let b0 := Nat.land (Nat.shiftRight S 32) 4294967295
  let c0 := Nat.land (Nat.shiftRight S 64) 4294967295
  let d0 := Nat.land (Nat.shiftRight S 96) 4294967295
  let t48 := (a0 + (Nat.xor c0 (Nat.lor b0 (Nat.xor d0 4294967295))) + 4096336452 + (Nat.land M 4294967295)) % 4294967296
  let v48 := (b0 + Nat.lor (Nat.land (Nat.shiftLeft t48 6) 4294967295) (Nat.shiftRight t48 26)) % 4294967296
  let t49 := (d0 + (Nat.xor b0 (Nat.lor v48 (Nat.xor c0 4294967295))) + 1126891415 + (Nat.land (Nat.shiftRight M 224) 4294967295)) % 4294967296
  let v49 := (v48 + Nat.lor (Nat.land (Nat.shiftLeft t49 10) 4294967295) (Nat.shiftRight t49 22)) % 4294967296
  let t50 := (c0 + (Nat.xor v48 (Nat.lor v49 (Nat.xor b0 4294967295))) + 2878612391 + (Nat.land (Nat.shiftRight M 448) 4294967295)) % 4294967296
  let v50 := (v49 + Nat.lor (Nat.land (Nat.shiftLeft t50 15) 4294967295) (Nat.shiftRight t50 17)) % 4294967296
  let t51 := (b0 + (Nat.xor v49 (Nat.lor v50 (Nat.xor v48 4294967295))) + 4237533241 + (Nat.land (Nat.shiftRight M 160) 4294967295)) % 4294967296
  let v51 := (v50 + Nat.lor (Nat.land (Nat.shiftLeft t51 21) 4294967295) (Nat.shiftRight t51 11)) % 4294967296
  let t52 := (v48 + (Nat.xor v50 (Nat.lor v51 (Nat.xor v49 4294967295))) + 1700485571 + (Nat.land (Nat.shiftRight M 384) 4294967295)) % 4294967296
  let v52 := (v51 + Nat.lor (Nat.land (Nat.shiftLeft t52 6) 4294967295) (Nat.shiftRight t52 26)) % 4294967296
  let t53 := (v49 + (Nat.xor v51 (Nat.lor v52 (Nat.xor v50 4294967295))) + 2399980690 + (Nat.land (Nat.shiftRight M 96) 4294967295)) % 4294967296
  let v53 := (v52 + Nat.lor (Nat.land (Nat.shiftLeft t53 10) 4294967295) (Nat.shiftRight t53 22)) % 4294967296
  let t54 := (v50 + (Nat.xor v52 (Nat.lor v53 (Nat.xor v51 4294967295))) + 4293915773 + (Nat.land (Nat.shiftRight M 320) 4294967295)) % 4294967296
  let v54 := (v53 + Nat.lor (Nat.land (Nat.shiftLeft t54 15) 4294967295) (Nat.shiftRight t54 17)) % 4294967296
  let t55 := (v51 + (Nat.xor v53 (Nat.lor v54 (Nat.xor v52 4294967295))) + 2240044497 + (Nat.land (Nat.shiftRight M 32) 4294967295)) % 4294967296
  let v55 := (v54 + Nat.lor (Nat.land (Nat.shiftLeft t55 21) 4294967295) (Nat.shiftRight t55 11)) % 4294967296
  let t56 := (v52 + (Nat.xor v54 (Nat.lor v55 (Nat.xor v53 4294967295))) + 1873313359 + (Nat.land (Nat.shiftRight M 256) 4294967295)) % 4294967296
  let v56 := (v55 + Nat.lor (Nat.land (Nat.shiftLeft t56 6) 4294967295) (Nat.shiftRight t56 26)) % 4294967296
  let t57 := (v53 + (Nat.xor v55 (Nat.lor v56 (Nat.xor v54 4294967295))) + 4264355552 + (Nat.land (Nat.shiftRight M 480) 4294967295)) % 4294967296
  let v57 := (v56 + Nat.lor (Nat.land (Nat.shiftLeft t57 10) 4294967295) (Nat.shiftRight t57 22)) % 4294967296
  let t58 := (v54 + (Nat.xor v56 (Nat.lor v57 (Nat.xor v55 4294967295))) + 2734768916 + (Nat.land (Nat.shiftRight M 192) 4294967295)) % 4294967296
  let v58 := (v57 + Nat.lor (Nat.land (Nat.shiftLeft t58 15) 4294967295) (Nat.shiftRight t58 17)) % 4294967296
  let t59 := (v55 + (Nat.xor v57 (Nat.lor v58 (Nat.xor v56 4294967295))) + 1309151649 + (Nat.land (Nat.shiftRight M 416) 4294967295)) % 4294967296
  let v59 := (v58 + Nat.lor (Nat.land (Nat.shiftLeft t59 21) 4294967295) (Nat.shiftRight t59 11)) % 4294967296
  let t60 := (v56 + (Nat.xor v58 (Nat.lor v59 (Nat.xor v57 4294967295))) + 4149444226 + (Nat.land (Nat.shiftRight M 128) 4294967295)) % 4294967296
  let v60 := (v59 + Nat.lor (Nat.land (Nat.shiftLeft t60 6) 4294967295) (Nat.shiftRight t60 26)) % 4294967296
  let t61 := (v57 + (Nat.xor v59 (Nat.lor v60 (Nat.xor v58 4294967295))) + 3174756917 + (Nat.land (Nat.shiftRight M 352) 4294967295)) % 4294967296
  let v61 := (v60 + Nat.lor (Nat.land (Nat.shiftLeft t61 10) 4294967295) (Nat.shiftRight t61 22)) % 4294967296
  let t62 := (v58 + (Nat.xor v60 (Nat.lor v61 (Nat.xor v59 4294967295))) + 718787259 + (Nat.land (Nat.shiftRight M 64) 4294967295)) % 4294967296
  let v62 := (v61 + Nat.lor (Nat.land (Nat.shiftLeft t62 15) 4294967295) (Nat.shiftRight t62 17)) % 4294967296
  let t63 := (v59 + (Nat.xor v61 (Nat.lor v62 (Nat.xor v60 4294967295))) + 3951481745 + (Nat.land (Nat.shiftRight M 288) 4294967295)) % 4294967296
  let v63 := (v62 + Nat.lor (Nat.land (Nat.shiftLeft t63 21) 4294967295) (Nat.shiftRight t63 11)) % 4294967296
  v60 + 4294967296 * (v63 + 4294967296 * (v62 + 4294967296 * v61))

/-- One application of the MD5 compression function: the four unrolled
16-step rounds, then the feed-forward addition of the incoming state. -/
def md5Compress (S M : Nat) : Nat :=
  let s1 := md5Round1 S M
  let s2 := strictPass s1 (md5Round2 s1 M)
  let s3 := strictPass s2 (md5Round3 s2 M)
  let s4 := strictPass s3 (md5Round4 s3 M)
  (Nat.land S 4294967295 + Nat.land s4 4294967295) % 4294967296 +
    4294967296 * ((Nat.land (Nat.shiftRight S 32) 4294967295 +
                   Nat.land (Nat.shiftRight s4 32) 4294967295) % 4294967296 +
    4294967296 * ((Nat.land (Nat.shiftRight S 64) 4294967295 +
                   Nat.land (Nat.shiftRight s4 64) 4294967295) % 4294967296 +
    4294967296 * ((Nat.land (Nat.shiftRight S 96) 4294967295 +
                   Nat.land (Nat.shiftRight s4 96) 4294967295) % 4294967296)))

/-- Run `md5Compress` over `nb` consecutive 64-byte blocks of the packed
message `p`, starting from state `st`.  Written with a bare `Nat.rec` so the
kernel unfolds it without `brecOn` towers. -/
def md5Blocks (nb : Nat) : Nat → Nat → Nat :=
  Nat.rec (motive := fun _ => Nat → Nat → Nat)
    (fun st _ => st)
    (fun _ ih st p =>
      let st2 := md5Compress st p
      strictPass st2 (ih st2 (Nat.shiftRight p 512)))
    nb

/-- MD5 (RFC 1321) of a `len`-byte message packed little-endian into `P`:
append the `0x80` byte, zero-pad to 56 mod 64, append the 64-bit little-endian
bit count, and compress block by block.  The result is the 16-byte digest
packed little-endian. -/
def md5DigestN (P len : Nat) : Nat :=
  let z := (119 - len % 64) % 64
  let P1 := Nat.land P (Nat.shiftLeft 1 (8 * len) - 1) +
            Nat.shiftLeft 128 (8 * len) +
            Nat.shiftLeft (8 * len) (8 * (len + 1 + z))
  md5Blocks ((len + 1 + z + 8) / 64) md5InitS P1

/-- MD5 digest as a list of 16 bytes, for callers that work with byte lists. -/
def md5Digest (msg : List Nat) : List Nat :=
  natToBytesLE 16 (md5DigestN (packBytes msg) msg.length)

/-! The APR1 digest engine.  The crate's `md5` module is not present under
`src/`, so these definitions are modelled from the specification (§4.2),
which gives the algorithm step by step. -/

/-- Modelled from the spec: the MD5-scheme marker `"$apr1$"` exported by the
missing `md5` module (`use crate::md5::APR1_ID`, spec §4.2 step 1). -/
def APR1_ID : String := "$apr1$"

/-- Modelled from the spec: the custom 64-symbol alphabet `./0-9A-Za-z` of
the missing `md5` module (spec §4.2 step 7). -/
def itoa64 : String :=
  "./0123456789ABCDEFGHIJKLMNOPQRSTUVWXYZabcdefghijklmnopqrstuvwxyz"

/-- Emit `n` symbols from `v`, least-significant 6 bits first, through the
`itoa64` alphabet (spec §4.2 step 7). -/
def to64 (v : Nat) : Nat → List Char
  | 0 => []
  | n + 1 => itoa64.data.getD (v % 64) '.' :: to64 (v / 64) n

/-- Spec §4.2 step 3: append the first `min(remaining, 16)` bytes of the
auxiliary digest `d0` (packed), decrementing `remaining` by 16 from the
password length until it reaches 0.  Returns the packed bytes and their
count; `fuel` bounds the iteration (any `fuel ≥ remaining` is exact). -/
def apr1Fill (d0 : Nat) : Nat → Nat → Nat × Nat
  | 0, _ => (0, 0)
  | _ + 1, 0 => (0, 0)
  | fuel + 1, r + 1 =>
      let m := min (r + 1) 16
      let rest := apr1Fill d0 fuel (r + 1 - 16)
      (catBytes (d0 % Nat.shiftLeft 1 (8 * m)) m rest.1, m + rest.2)

/-- Spec §4.2 step 4: walk the bits of the password length from the low end;
a 1-bit contributes a null byte, a 0-bit the first password byte (`pw` is the
packed password).  Returns packed bytes and their count; `fuel` bounds the
iteration. -/
def apr1Bits (pw : Nat) : Nat → Nat → Nat × Nat
  | 0, _ => (0, 0)
  | _ + 1, 0 => (0, 0)
  | fuel + 1, i + 1 =>
      let b := cond (Nat.beq ((i + 1) % 2) 1) 0 (Nat.land pw 255)
      let rest := apr1Bits pw fuel ((i + 1) / 2)
      (catBytes b 1 rest.1, 1 + rest.2)

/-- Spec §4.2 step 6: the byte sequence hashed in round `i`, as packed bytes
plus length (password `pw`/`lp`, salt `sb`/`ls`, previous context `ctx` of 16
bytes): odd rounds start with the password and close with the context, even
rounds the reverse; the salt joins unless `i % 3 = 0`, the password joins
unless `i % 7 = 0`. -/
def apr1RoundMsg (pw lp sb ls ctx i : Nat) : Nat × Nat :=
  let p1 := if i % 2 = 1 then (pw, lp) else (ctx, 16)
  let p2 := if i % 3 ≠ 0 then (sb, ls) else (0, 0)
  let p3 := if i % 7 ≠ 0 then (pw, lp) else (0, 0)
  let p4 := if i % 2 = 1 then (ctx, 16) else (pw, lp)
  (catBytes p1.1 p1.2 (catBytes p2.1 p2.2 (catBytes p3.1 p3.2 p4.1)),
   p1.2 + p2.2 + p3.2 + p4.2)

/-- Spec §4.2 step 6: iterate `fuel` rounds from round index `i`, each round
replacing the packed context by the MD5 of that round's byte sequence. -/
def apr1Rounds (pw lp sb ls : Nat) (fuel : Nat) : Nat → Nat → Nat :=
  Nat.rec (motive := fun _ => Nat → Nat → Nat)
    (fun _ ctx => ctx)
    (fun _ ih i ctx =>
      let m := apr1RoundMsg pw lp sb ls ctx i
      let c := md5DigestN m.1 m.2
      strictPass c (ih (i + 1) c))
    fuel

/-- Spec §4.2 step 7: render the 16 context bytes `c0..c15` (packed in `c`)
through `to64` in the permuted triple order `(0,6,12) (1,7,13) (2,8,14)
(3,9,15) (4,10,5)`, four symbols per triple, then `c11` alone as two
symbols — 22 characters in all. -/
def apr1Out (c : Nat) : List Char :=
  let g := fun i => Nat.land (Nat.shiftRight c (8 * i)) 255
  to64 (g 0 * 65536 + g 6 * 256 + g 12) 4 ++
  to64 (g 1 * 65536 + g 7 * 256 + g 13) 4 ++
  to64 (g 2 * 65536 + g 8 * 256 + g 14) 4 ++
  to64 (g 3 * 65536 + g 9 * 256 + g 15) 4 ++
  to64 (g 4 * 65536 + g 10 * 256 + g 5) 4 ++
  to64 (g 11) 2

/-- Modelled from the spec: `md5_apr1_encode` of the missing `md5` module
(spec §4.2 steps 1–7): seed a context with password, `"$apr1$"`, salt, the
chunked auxiliary digest `MD5(password ∥ salt ∥ password)` and the
length-bit bytes; then run 1000 rounds and render the final context through
the custom alphabet. -/
def md5_apr1_encode (password salt : String) : String :=
  let pwL := strBytes password
  let pw := packBytes pwL
  let lp := pwL.length
  let sb := packBytes (strBytes salt)
  let ls := (strBytes salt).length
  let d0 := md5DigestN (catBytes pw lp (catBytes sb ls pw)) (lp + ls + lp)
  let fill := apr1Fill d0 lp lp
  let bits := apr1Bits pw lp lp
  let seed := catBytes pw lp (catBytes (packBytes (strBytes APR1_ID)) 6
    (catBytes sb ls (catBytes fill.1 fill.2 bits.1)))
  let ctx0 := md5DigestN seed (lp + 6 + ls + fill.2 + bits.2)
  ⟨apr1Out (apr1Rounds pw lp sb ls 1000 0 ctx0)⟩

/-- Modelled from the spec: `format_hash` of the missing `md5` module
(spec §4.2 step 8): `"$apr1$" + salt + "$" + encoded`. -/
def format_hash (hash salt : String) : String := APR1_ID ++ salt ++ "$" ++ hash

/-- Modelled from the spec: `verify_apr1_hash` of the missing `md5` module
(spec §4.2, "Verification"): parse the stored hash by the §4.1 MD5-variant
rule (salt = the 8 characters after the marker, expected encoding = what
follows the next separator), re-encode and compare; the tri-state
match / no-match / malformed-input becomes `some true / some false / none`. -/
def verify_apr1_hash (stored password : String) : Option Bool :=
  if APR1_ID.data.isPrefixOf stored.data ∧ 15 ≤ stored.data.length then
    some (md5_apr1_encode password ⟨(stored.data.drop 6).take 8⟩ ==
          ⟨stored.data.drop 15⟩)
  else none

/-! SHA-1 (RFC 3174) and standard base64 (RFC 4648): concrete models of the
`crypto` crate's one-shot `Sha1` and the `base64` crate's `encode`, the two
external primitives that the `{SHA}` scheme delegates to. -/

/-- 32-bit wrap-around. -/
def w32 (x : Nat) : Nat := x % 4294967296

/-- 32-bit addition. -/
def add32 (a b : Nat) : Nat := (a + b) % 4294967296

/-- 32-bit complement. -/
def not32 (x : Nat) : Nat := Nat.xor x 4294967295

/-- 32-bit left rotation by `n < 32`. -/
def rotl32 (x n : Nat) : Nat :=
  Nat.lor (w32 (Nat.shiftLeft x n)) (Nat.shiftRight x (32 - n))

/-- SHA-1 padding: `0x80`, zeros to 56 mod 64, 64-bit big-endian bit count. -/
def sha1Pad (msg : List Nat) : List Nat :=
  msg ++ 128 :: List.replicate ((119 - msg.length % 64) % 64) 0 ++
    natToBytesBE 8 (8 * msg.length)

/-- Big-endian 32-bit words of a byte list. -/
def bytesToWordsBE : List Nat → List Nat
  | b0 :: b1 :: b2 :: b3 :: rest =>
      (16777216 * b0 + 65536 * b1 + 256 * b2 + b3) :: bytesToWordsBE rest
  | _ => []

/-- SHA-1 message-schedule extension: append `n` further words, each the
1-rotation of the XOR of the words 3, 8, 14 and 16 places back. -/
def sha1Extend : Nat → List Nat → List Nat
  | 0, ws => ws
  | n + 1, ws =>
      let m := ws.length
      sha1Extend n (ws ++ [rotl32
        (Nat.xor (Nat.xor (ws.getD (m - 3) 0) (ws.getD (m - 8) 0))
                 (Nat.xor (ws.getD (m - 14) 0) (ws.getD (m - 16) 0))) 1])

/-- One SHA-1 step: the round function and constant switch every 20 steps. -/
def sha1Step (ws : List Nat) (st : Nat × Nat × Nat × Nat × Nat) (i : Nat) :
    Nat × Nat × Nat × Nat × Nat :=
  let (a, b, c, d, e) := st
  let f :=
    if i < 20 then Nat.lor (Nat.land b c) (Nat.land (not32 b) d)
    else if i < 40 then Nat.xor b (Nat.xor c d)
    else if i < 60 then Nat.lor (Nat.lor (Nat.land b c) (Nat.land b d)) (Nat.land c d)
    else Nat.xor b (Nat.xor c d)
  let k :=
    if i < 20 then 0x5A827999
    else if i < 40 then 0x6ED9EBA1
    else if i < 60 then 0x8F1BBCDC
    else 0xCA62C1D6
  let t := add32 (add32 (rotl32 a 5) f) (add32 e (add32 k (ws.getD i 0)))
  (t, a, rotl32 b 30, c, d)

/-- SHA-1 compression of one 16-word block: extend to 80 schedule words, run
the 80 steps, add the incoming state back. -/
def sha1Compress (st : Nat × Nat × Nat × Nat × Nat) (block : List Nat) :
    Nat × Nat × Nat × Nat × Nat :=
  let (a0, b0, c0, d0, e0) := st
  let ws := sha1Extend 64 block
  let (a, b, c, d, e) := (List.range 80).foldl (sha1Step ws) (a0, b0, c0, d0, e0)
  (add32 a0 a, add32 b0 b, add32 c0 c, add32 d0 d, add32 e0 e)

/-- Fold `sha1Compress` over consecutive 16-word blocks. -/
def sha1Blocks : Nat × Nat × Nat × Nat × Nat → List Nat → Nat × Nat × Nat × Nat × Nat
  | st, w0 :: w1 :: w2 :: w3 :: w4 :: w5 :: w6 :: w7 ::
        w8 :: w9 :: w10 :: w11 :: w12 :: w13 :: w14 :: w15 :: rest =>
      sha1Blocks
        (sha1Compress st
          [w0, w1, w2, w3, w4, w5, w6, w7, w8, w9, w10, w11, w12, w13, w14, w15])
        rest
  | st, _ => st

/-- SHA-1 digest of a byte list: 20 bytes, big-endian words. -/
def sha1Digest (msg : List Nat) : List Nat :=
  let r :=
    sha1Blocks (0x67452301, 0xEFCDAB89, 0x98BADCFE, 0x10325476, 0xC3D2E1F0)
      (bytesToWordsBE (sha1Pad msg))
  natToBytesBE 4 r.1 ++ natToBytesBE 4 r.2.1 ++ natToBytesBE 4 r.2.2.1 ++
    natToBytesBE 4 r.2.2.2.1 ++ natToBytesBE 4 r.2.2.2.2

/-- The standard base64 alphabet (RFC 4648). -/
def b64Alphabet : String :=
  "ABCDEFGHIJKLMNOPQRSTUVWXYZabcdefghijklmnopqrstuvwxyz0123456789+/"

/-- Symbol `n` (< 64) of the standard base64 alphabet. -/
def b64Char (n : Nat) : Char := b64Alphabet.data.getD n 'A'

/-- Standard base64: 3-byte groups to 4 symbols, `=`-padded tail. -/
def base64Chars : List Nat → List Char
  | b0 :: b1 :: b2 :: rest =>
      let v := b0 * 65536 + b1 * 256 + b2
      b64Char (v / 262144) :: b64Char (v / 4096 % 64) ::
        b64Char (v / 64 % 64) :: b64Char (v % 64) :: base64Chars rest
  | [b0, b1] =>
      let v := b0 * 65536 + b1 * 256
      [b64Char (v / 262144), b64Char (v / 4096 % 64), b64Char (v / 64 % 64), '=']
  | [b0] =>
      let v := b0 * 65536
      [b64Char (v / 262144), b64Char (v / 4096 % 64), '=', '=']
  | [] => []

/-- The `base64` crate's `encode` on a byte list, as a string. -/
def base64_encode (bs : List Nat) : String := ⟨base64Chars bs⟩

/-! The `lib.rs` embedding: hash descriptors, prefix classification,
verification dispatch and the credential store. -/

/-- The bcrypt marker `BCRYPT_ID` of `lib.rs`. -/
def BCRYPT_ID : String := "$2y$"

/-- The SHA-1 marker `SHA1_ID` of `lib.rs` (the five characters
left-brace, S, H, A, right-brace). -/
def SHA1_ID : String := "\x7bSHA\x7d"

/-- Rust's `str::starts_with` on our character-level strings. -/
def strStartsWith (s p : String) : Bool := p.data.isPrefixOf s.data

/-- Rust's range slice `&s[a..b]`; `none` models the out-of-range panic. -/
def strSlice (s : String) (a b : Nat) : Option String :=
  if a ≤ b ∧ b ≤ s.data.length then some ⟨(s.data.take b).drop a⟩ else none

/-- Rust's open-ended slice `&s[a..]`; `none` models the out-of-range
panic. -/
def strSliceFrom (s : String) (a : Nat) : Option String :=
  if a ≤ s.data.length then some ⟨s.data.drop a⟩ else none

/-- The `MD5Hash` struct of `lib.rs`: an 8-character salt and the trailing
encoded digest. -/
structure MD5Hash where
  salt : String
  hash : String
deriving DecidableEq

/-- The `Hash` enum of `lib.rs`: one variant per scheme. -/
inductive Hash where
  | MD5 : MD5Hash → Hash
  | BCrypt : String → Hash
  | SHA1 : String → Hash
  | Crypt : String → Hash
deriving DecidableEq

/-- The external verifiers that `Hash::check` delegates to, left opaque:
`bcryptVerify password hash` models `bcrypt::verify` (`none` is the crate's
`Err` case), `unixCryptVerify password hash` models
`pwhash::unix_crypt::verify` (infallible). -/
structure Primitives where
  bcryptVerify : String → String → Option Bool
  unixCryptVerify : String → String → Bool

/-- `Hash::parse` of `lib.rs`: classify a hash string by literal prefix, in
source order — `"$apr1$"` first (salt = characters 6..14, digest =
characters 15.., both sliced without a bounds check, so a short string
panics: `none`), then `"$2y$"`, then `"{SHA}"` (drop the marker), else the
legacy-crypt fallback carrying the whole string. -/
def Hash.parse (hash : String) : Option Hash :=
  if strStartsWith hash APR1_ID then
    (strSlice hash APR1_ID.length (APR1_ID.length + 8)).bind fun salt =>
      (strSliceFrom hash (APR1_ID.length + 8 + 1)).map fun rest =>
        Hash.MD5 ⟨salt, rest⟩
  else if strStartsWith hash BCRYPT_ID then some (Hash.BCrypt hash)
  else if strStartsWith hash SHA1_ID then
    (strSliceFrom hash SHA1_ID.length).map fun rest => Hash.SHA1 rest
  else some (Hash.Crypt hash)

/-- `Hash::check` of `lib.rs`: MD5 re-encodes with the stored salt and
compares strings; BCrypt delegates to `bcrypt::verify` whose `Err` is
`.unwrap()`ed (a panic, modelled `none`); SHA1 compares the standard base64
of the one-shot SHA-1 of the password; Crypt delegates to the legacy-crypt
verifier. -/
def Hash.check (prim : Primitives) (h : Hash) (password : String) : Option Bool :=
  match h with
  | Hash.MD5 m => some (md5_apr1_encode password m.salt == m.hash)
  | Hash.BCrypt s => prim.bcryptVerify password s
  | Hash.SHA1 s => some (base64_encode (sha1Digest (strBytes password)) == s)
  | Hash.Crypt s => some (prim.unixCryptVerify password s)

/-- Rust's `str::find(':')`: index of the first colon, if any. -/
def findColon : List Char → Option Nat
  | [] => none
  | c :: cs => if c = ':' then some 0 else (findColon cs).map (· + 1)

/-- `parse_hash_entry` of `lib.rs`: split at the first `:`; a line without
one yields `some none` (skipped by the caller's `filter_map`); the part after
the colon goes through `Hash::parse`, whose panic propagates (outer
`none`). -/
def parse_hash_entry (entry : String) : Option (Option (String × Hash)) :=
  match findColon entry.data with
  | none => some none
  | some i =>
      (Hash.parse ⟨entry.data.drop (i + 1)⟩).map fun h =>
        some (⟨entry.data.take i⟩, h)

/-- Rust's `str::split('\n')`: split at every newline, keeping empty
pieces. -/
def splitNl : List Char → List (List Char)
  | [] => [[]]
  | c :: cs =>
      if c = '\n' then [] :: splitNl cs
      else (c :: (splitNl cs).headI) :: (splitNl cs).tail

/-- The lines of a text, as strings. -/
def linesOf (text : String) : List String := (splitNl text.data).map fun l => ⟨l⟩

/-- Process lines in order: skipped lines contribute nothing, parsed entries
are kept in line order, a parse panic aborts the whole load (`none`). -/
def loadLines : List String → Option (List (String × Hash))
  | [] => some []
  | l :: ls =>
      match parse_hash_entry l with
      | none => none
      | some none => loadLines ls
      | some (some e) => (loadLines ls).map (e :: ·)

/-- `load` of `lib.rs`: split on `'\n'`, parse each line, collect the
surviving entries.  The resulting list, read with `Htpasswd.get`, is the
`HashMap` built by `collect` (later inserts overwrite earlier ones). -/
def load (text : String) : Option (List (String × Hash)) :=
  loadLines (linesOf text)

/-- `HashMap::get` on the collected entries: the *last* insertion for a key
wins, hence the lookup over the reversed entry list. -/
def Htpasswd.get (es : List (String × Hash)) (u : String) : Option Hash :=
  List.lookup u es.reverse

/-- `Htpasswd::check` of `lib.rs`: look the username up; a missing user is
`false` (`unwrap_or_default`), a present one delegates to `Hash::check`
(whose panic propagates). -/
def Htpasswd.check (prim : Primitives) (es : List (String × Hash))
    (username password : String) : Option Bool :=
  match Htpasswd.get es username with
  | none => some false
  | some h => Hash.check prim h password

/-- Concrete delegated verifiers for witnesses: bcrypt always fails to parse
(`none`), legacy crypt always rejects. -/
def primErr : Primitives := ⟨fun _ _ => none, fun _ _ => false⟩

/-- Concrete delegated verifiers for witnesses: bcrypt always verifies
`false`, legacy crypt always rejects. -/
def primFalse : Primitives := ⟨fun _ _ => some false, fun _ _ => false⟩

/-- Entry classification as the specification words it (§3 invariant, §4.1,
§7): literal prefix match in fixed priority order — MD5 marker first (salt =
the 8 characters after the marker, digest = everything after the following
separator, defined only when the string is long enough, malformed otherwise),
then the bcrypt marker, then the SHA marker, else the legacy fallback over
the whole remainder. -/
def specClassify (h : String) : Option Hash :=
  if strStartsWith h APR1_ID then
    if 15 ≤ h.data.length then
      some (Hash.MD5 ⟨⟨(h.data.take 14).drop 6⟩, ⟨h.data.drop 15⟩⟩)
    else none
  else if strStartsWith h BCRYPT_ID then some (Hash.BCrypt h)
  else if strStartsWith h SHA1_ID then some (Hash.SHA1 ⟨h.data.drop 5⟩)
  else some (Hash.Crypt h)

/-! General lemmas. -/

theorem natToBytesLE_length : ∀ (k v : Nat), (natToBytesLE k v).length = k
  | 0, _ => rfl
  | k + 1, v => by simp [natToBytesLE, natToBytesLE_length k]

theorem natToBytesBE_length (k v : Nat) : (natToBytesBE k v).length = k := by
  simp [natToBytesBE, natToBytesLE_length]

theorem sha1Digest_length (m : List Nat) : (sha1Digest m).length = 20 := by
  simp [sha1Digest, natToBytesBE_length]

theorem isPrefixOf_append (l r : List Char) : l.isPrefixOf (l ++ r) = true := by
  rw [List.isPrefixOf_iff_prefix]; exact List.prefix_append l r

theorem splitNl_append_newline :
    ∀ (xs ys : List Char), '\n' ∉ xs → splitNl (xs ++ '\n' :: ys) = xs :: splitNl ys
  | [], ys, _ => by simp [splitNl]
  | c :: xs, ys, h => by
    have hc : ¬(c = '\n') := fun hco => h (hco ▸ List.mem_cons_self c xs)
    have hxs : '\n' ∉ xs := fun hm => h (List.mem_cons_of_mem c hm)
    have heq := splitNl_append_newline xs ys hxs
    calc splitNl ((c :: xs) ++ '\n' :: ys)
        = (c :: (splitNl (xs ++ '\n' :: ys)).headI) ::
            (splitNl (xs ++ '\n' :: ys)).tail := by
          rw [List.cons_append]; simp [splitNl, hc]
      _ = (c :: (xs :: splitNl ys).headI) :: (xs :: splitNl ys).tail := by rw [heq]
      _ = (c :: xs) :: splitNl ys := rfl

theorem splitNl_no_newline : ∀ (xs : List Char), '\n' ∉ xs → splitNl xs = [xs]
  | [], _ => rfl
  | c :: xs, h => by
    have hc : ¬(c = '\n') := fun hco => h (hco ▸ List.mem_cons_self c xs)
    have hxs : '\n' ∉ xs := fun hm => h (List.mem_cons_of_mem c hm)
    simp only [splitNl, if_neg hc, splitNl_no_newline xs hxs, List.headI, List.tail]

theorem findColon_of_not_mem : ∀ (cs : List Char), ':' ∉ cs → findColon cs = none
  | [], _ => rfl
  | c :: cs, h => by
    have hc : ¬(c = ':') := fun hco => h (hco ▸ List.mem_cons_self c cs)
    have hcs : ':' ∉ cs := fun hm => h (List.mem_cons_of_mem c hm)
    simp [findColon, hc, findColon_of_not_mem cs hcs]

theorem findColon_append :
    ∀ (u r : List Char), ':' ∉ u → findColon (u ++ ':' :: r) = some u.length
  | [], r, _ => by simp [findColon]
  | c :: u, r, h => by
    have hc : ¬(c = ':') := fun hco => h (hco ▸ List.mem_cons_self c u)
    have hu : ':' ∉ u := fun hm => h (List.mem_cons_of_mem c hm)
    simp [findColon, hc, findColon_append u r hu]

theorem lookup_append_of_keys_ne :
    ∀ (l₁ l₂ : List (String × Hash)) (u : String), (∀ e ∈ l₁, e.1 ≠ u) →
      List.lookup u (l₁ ++ l₂) = List.lookup u l₂
  | [], _, _, _ => rfl
  | (k, v) :: l₁, l₂, u, h => by
    have he : k ≠ u := h (k, v) (List.mem_cons_self (k, v) l₁)
    have hne : (u == k) = false := beq_false_of_ne fun hu => he hu.symm
    calc List.lookup u (((k, v) :: l₁) ++ l₂)
        = List.lookup u (l₁ ++ l₂) := by
          rw [List.cons_append]; simp [List.lookup, hne]
      _ = List.lookup u l₂ :=
          lookup_append_of_keys_ne l₁ l₂ u fun x hx => h x (List.mem_cons_of_mem _ hx)

theorem lookup_none_of_keys_ne :
    ∀ (l : List (String × Hash)) (u : String), (∀ e ∈ l, e.1 ≠ u) →
      List.lookup u l = none
  | [], _, _ => rfl
  | (k, v) :: l, u, h => by
    have he : k ≠ u := h (k, v) (List.mem_cons_self (k, v) l)
    have hne : (u == k) = false := beq_false_of_ne fun hu => he hu.symm
    calc List.lookup u ((k, v) :: l)
        = List.lookup u l := by simp [List.lookup, hne]
      _ = none := lookup_none_of_keys_ne l u fun x hx => h x (List.mem_cons_of_mem _ hx)

/-! Claim theorems. -/

/-- C3 (amended): `Hash::parse` classifies every hash string by literal
prefix in the fixed priority order MD5-marker, bcrypt-marker, SHA-marker,
legacy fallback — exactly as the specification words it, except that a
string that starts with `"$apr1$"` yields the MD5 variant only when it is at
least 15 characters long; a shorter one makes the parse fail (the source
slices out of range). -/
theorem parse_matches_spec_classification (h : String) :
    Hash.parse h = specClassify h := by
  have hA : APR1_ID.length = 6 := rfl
  have hS : SHA1_ID.length = 5 := rfl
  by_cases h1 : strStartsWith h APR1_ID = true
  · by_cases h2 : 15 ≤ h.data.length
    · have h2' : 15 ≤ h.length := h2
      have e1 : strSlice h 6 14 = some ⟨(h.data.take 14).drop 6⟩ := by
        rw [strSlice, if_pos]; exact ⟨by omega, by omega⟩
      have e2 : strSliceFrom h 15 = some ⟨h.data.drop 15⟩ := by
        rw [strSliceFrom, if_pos h2]
      simp [Hash.parse, specClassify, h1, h2, h2', hA, e1, e2]
    · have h2' : ¬15 ≤ h.length := h2
      by_cases h3 : 14 ≤ h.data.length
      · have e2 : strSliceFrom h 15 = none := by
          rw [strSliceFrom, if_neg]; omega
        have e1 : strSlice h 6 14 = some ⟨(h.data.take 14).drop 6⟩ := by
          rw [strSlice, if_pos]; exact ⟨by omega, by omega⟩
        simp [Hash.parse, specClassify, h1, h2, h2', hA, e1, e2]
      · have e1 : strSlice h 6 14 = none := by
          rw [strSlice, if_neg]; intro hand; omega
        simp [Hash.parse, specClassify, h1, h2, h2', hA, e1]
  · by_cases h2 : strStartsWith h BCRYPT_ID = true
    · simp [Hash.parse, specClassify, h1, h2]
    · by_cases h3 : strStartsWith h SHA1_ID = true
      · have hpre : SHA1_ID.data <+: h.data := List.isPrefixOf_iff_prefix.mp h3
        have hlen : 5 ≤ h.data.length := by
          have := hpre.length_le
          simpa using this
        have e : strSliceFrom h 5 = some ⟨h.data.drop 5⟩ := by
          rw [strSliceFrom, if_pos hlen]
        simp [Hash.parse, specClassify, h1, h2, h3, hS, e]
      · simp [Hash.parse, specClassify, h1, h2, h3]

/-- C3 counterexample: the bare marker starts with `"$apr1$"` yet does not
become the MD5 variant — parsing it fails (out-of-range slice). -/
theorem parse_marker_only_is_none : Hash.parse "$apr1$" = none := by decide

/-- C4: a hash string that begins with `"$apr1$"` but is too short for the
8-character salt and separator makes `Hash::parse` slice out of range — a
panic, modelled as `none`, not a recoverable `MalformedHash` error value. -/
theorem parse_short_apr1_is_none : Hash.parse "$apr1$abc" = none := by decide

/-- C5: when the delegated bcrypt primitive fails on the raw stored string,
`Hash::check` propagates the failure (the `.unwrap()` panic, modelled
`none`) — an outcome distinct from every boolean answer, in particular not a
silent `false`. -/
theorem bcrypt_failure_surfaces (prim : Primitives) (raw pw : String)
    (h : prim.bcryptVerify pw raw = none) :
    Hash.check prim (Hash.BCrypt raw) pw = none ∧
      Hash.check prim (Hash.BCrypt raw) pw ≠ some false := by
  constructor
  · simpa [Hash.check] using h
  · simp [Hash.check, h]

/-- C5 witness: with a bcrypt primitive that rejects its input, `check` on a
bcrypt descriptor is the error outcome, not `some false`. -/
theorem bcrypt_failure_surfaces_witness :
    Hash.check primErr (Hash.BCrypt "$2y$bad") "pw" = none ∧
      Hash.check primErr (Hash.BCrypt "$2y$bad") "pw" ≠ some false :=
  bcrypt_failure_surfaces primErr "$2y$bad" "pw" rfl

/-- C6 (amended): a line without a `:` separator — a blank line in
particular — is silently skipped wherever it occurs: removing it does not
change the result of loading at all (no entry, no error).  Loading itself
*can* fail, namely on a line whose hash part starts with `"$apr1$"` and is
too short (see the counterexample). -/
theorem load_skips_colonless_lines :
    ∀ (ls1 : List String) (l : String) (ls2 : List String), ':' ∉ l.data →
      loadLines (ls1 ++ l :: ls2) = loadLines (ls1 ++ ls2)
  | [], l, ls2, h => by
      have hp : parse_hash_entry l = some none := by
        rw [parse_hash_entry, findColon_of_not_mem l.data h]
      simp [loadLines, hp]
  | l0 :: ls1, l, ls2, h => by
      have ih := load_skips_colonless_lines ls1 l ls2 h
      rcases hp : parse_hash_entry l0 with _ | _ | e
      · simp [loadLines, hp]
      · simp [loadLines, hp, ih]
      · simp [loadLines, hp, ih]

/-- C6 counterexample: loading is not total — a line whose hash part is the
bare `"$apr1$"` marker makes the parse slice out of range and the whole load
fail. -/
theorem load_panics_on_short_apr1 : load "user:$apr1$" = none := by decide

/-- C6 witness: inserting a blank line between two entries leaves the load
result unchanged. -/
theorem load_skips_colonless_lines_witness :
    loadLines (["user:x"] ++ "" :: ["b:c"]) = loadLines (["user:x"] ++ ["b:c"]) :=
  load_skips_colonless_lines ["user:x"] "" ["b:c"] (by decide)

/-- C7: checking a username that has no entry in the store returns
`some false` — an ordinary negative answer, never an error. -/
theorem check_unknown_user_false (prim : Primitives) (es : List (String × Hash))
    (u p : String) (h : ∀ e ∈ es, e.1 ≠ u) :
    Htpasswd.check prim es u p = some false := by
  have hget : Htpasswd.get es u = none := by
    rw [Htpasswd.get]
    exact lookup_none_of_keys_ne es.reverse u fun e he => h e (List.mem_reverse.mp he)
  simp [Htpasswd.check, hget]

/-- C7 witness: a user absent from a one-entry store checks to `some false`. -/
theorem check_unknown_user_false_witness :
    Htpasswd.check primFalse [("user", Hash.Crypt "x")] "ghost" "pw" = some false :=
  check_unknown_user_false primFalse [("user", Hash.Crypt "x")] "ghost" "pw" (by decide)

/-- C8: in a store built by `load`, a duplicated username resolves to the
descriptor of the *last* line that bound it: any earlier entries are
shadowed, because the `HashMap` is filled in line order with later inserts
overwriting earlier ones. -/
theorem load_last_duplicate_wins (text : String) (es1 es2 : List (String × Hash))
    (u : String) (d : Hash) (_hload : load text = some (es1 ++ (u, d) :: es2))
    (hafter : ∀ e ∈ es2, e.1 ≠ u) :
    Htpasswd.get (es1 ++ (u, d) :: es2) u = some d := by
  have h1 : (es1 ++ (u, d) :: es2).reverse = es2.reverse ++ ((u, d) :: es1.reverse) := by
    simp
  rw [Htpasswd.get, h1,
    lookup_append_of_keys_ne es2.reverse ((u, d) :: es1.reverse) u
      fun e he => hafter e (List.mem_reverse.mp he)]
  simp [List.lookup]

/-- C8 witness: loading two lines for the same user and looking the user up
yields the second line's descriptor. -/
theorem load_last_duplicate_wins_witness :
    Htpasswd.get ([("u", Hash.Crypt "a")] ++ ("u", Hash.Crypt "b") :: []) "u" =
      some (Hash.Crypt "b") :=
  load_last_duplicate_wins "u:a\nu:b" [("u", Hash.Crypt "a")] [] "u"
    (Hash.Crypt "b") (by decide) (by decide)

/-- C9: checking a `{SHA}` descriptor succeeds exactly when the standard
base64 encoding of the unsalted one-shot SHA-1 digest of the password equals
the stored value after the marker; the digest in question is 20 bytes. -/
theorem sha1_check_iff_base64_eq (prim : Primitives) (raw pw : String) :
    (Hash.check prim (Hash.SHA1 raw) pw = some true ↔
      base64_encode (sha1Digest (strBytes pw)) = raw) ∧
    (sha1Digest (strBytes pw)).length = 20 := by
  refine ⟨?_, sha1Digest_length _⟩
  simp [Hash.check]

/-- C10: loading splits the input only at `'\n'`, so a CRLF-terminated line
`u:h\r\n` stores, under username `u`, whatever `Hash::parse` makes of the
hash part *with the trailing `'\r'` still attached* as its final character —
the carriage return is neither stripped before classification nor before
storage (and the empty piece after the final `'\n'` contributes nothing). -/
theorem load_splits_only_on_newline (u h : String)
    (hu : '\n' ∉ u.data) (hh : '\n' ∉ h.data) (hc : ':' ∉ u.data) :
    load (u ++ ":" ++ h ++ "\r\n") =
      (Hash.parse ⟨h.data ++ ['\r']⟩).map fun d => [(u, d)] := by
  have hdata : (u ++ ":" ++ h ++ "\r\n").data
      = (u.data ++ ':' :: (h.data ++ ['\r'])) ++ '\n' :: [] := by
    have h1 : (":" : String).data = [':'] := rfl
    have h2 : ("\r\n" : String).data = ['\r', '\n'] := rfl
    rw [String.data_append, String.data_append, String.data_append, h1, h2]
    simp
  have hnl : '\n' ∉ u.data ++ ':' :: (h.data ++ ['\r']) := by
    intro hm
    rcases List.mem_append.mp hm with hm1 | hm1
    · exact hu hm1
    · rcases List.mem_cons.mp hm1 with hm2 | hm2
      · exact absurd hm2 (by decide)
      · rcases List.mem_append.mp hm2 with hm3 | hm3
        · exact hh hm3
        · exact absurd hm3 (by decide)
  have hlines : linesOf (u ++ ":" ++ h ++ "\r\n") =
      [⟨u.data ++ ':' :: (h.data ++ ['\r'])⟩, ⟨[]⟩] := by
    rw [linesOf, hdata, splitNl_append_newline _ _ hnl]
    rfl
  have hfc : findColon (u.data ++ ':' :: (h.data ++ ['\r'])) = some u.data.length :=
    findColon_append u.data (h.data ++ ['\r']) hc
  have hpe : parse_hash_entry ⟨u.data ++ ':' :: (h.data ++ ['\r'])⟩ =
      (Hash.parse ⟨h.data ++ ['\r']⟩).map fun d => some (u, d) := by
    have hdd : (⟨u.data ++ ':' :: (h.data ++ ['\r'])⟩ : String).data
        = u.data ++ ':' :: (h.data ++ ['\r']) := rfl
    have htake : (u.data ++ ':' :: (h.data ++ ['\r'])).take u.data.length = u.data :=
      List.take_left' rfl
    have hdrop : (u.data ++ ':' :: (h.data ++ ['\r'])).drop (u.data.length + 1)
        = h.data ++ ['\r'] := by
      have hre : u.data ++ ':' :: (h.data ++ ['\r'])
          = (u.data ++ [':']) ++ (h.data ++ ['\r']) := by simp
      rw [hre]
      exact List.drop_left' (by simp)
    rw [parse_hash_entry, hdd, hfc]
    simp only [htake, hdrop]
  have hpe2 : parse_hash_entry ⟨[]⟩ = some none := rfl
  rw [load, hlines]
  rcases hp : Hash.parse ⟨h.data ++ ['\r']⟩ with _ | d
  · rw [hp] at hpe
    simp [loadLines, hpe]
  · rw [hp] at hpe
    simp [loadLines, hpe, hpe2]

/-- C10 witness: the line `user:hash` terminated by CRLF stores the
legacy-crypt descriptor whose raw string still ends in the carriage
return. -/
theorem load_splits_only_on_newline_witness :
    load "user:hash\r\n" = some [("user", Hash.Crypt "hash\r")] :=
  (load_splits_only_on_newline "user" "hash" (by decide) (by decide)
    (by decide)).trans (by decide)

/-- C1: for every password and every 8-character salt, formatting the APR1
encoding and verifying it round-trips: the formatted string parses back into
exactly the same salt and encoding, the encoding is recomputed from the same
inputs, and the comparison succeeds. -/
theorem verify_format_encode_roundtrip (p s : String) (hs : s.data.length = 8) :
    verify_apr1_hash (format_hash (md5_apr1_encode p s) s) p = some true := by
  have h6 : APR1_ID.data.length = 6 := rfl
  have hdata : (format_hash (md5_apr1_encode p s) s).data
      = APR1_ID.data ++ (s.data ++ '$' :: (md5_apr1_encode p s).data) := by
    show (APR1_ID ++ s ++ "$" ++ md5_apr1_encode p s).data = _
    have hd : ("$" : String).data = ['$'] := rfl
    rw [String.data_append, String.data_append, String.data_append, hd]
    simp
  have hpre : APR1_ID.data.isPrefixOf (format_hash (md5_apr1_encode p s) s).data
      = true := by
    rw [hdata]; exact isPrefixOf_append _ _
  have hlen : 15 ≤ (format_hash (md5_apr1_encode p s) s).data.length := by
    rw [hdata]; simp [hs, h6]; omega
  have hsalt : (((format_hash (md5_apr1_encode p s) s).data.drop 6).take 8)
      = s.data := by
    rw [hdata, List.drop_left' h6]
    exact List.take_left' hs
  have henc : (format_hash (md5_apr1_encode p s) s).data.drop 15
      = (md5_apr1_encode p s).data := by
    rw [hdata]
    have hre : APR1_ID.data ++ (s.data ++ '$' :: (md5_apr1_encode p s).data)
        = (APR1_ID.data ++ s.data ++ ['$']) ++ (md5_apr1_encode p s).data := by
      simp
    rw [hre]
    exact List.drop_left' (by simp [hs, h6])
  rw [verify_apr1_hash, if_pos ⟨hpre, hlen⟩, hsalt, henc]
  have e1 : (⟨s.data⟩ : String) = s := rfl
  have e2 : (⟨(md5_apr1_encode p s).data⟩ : String) = md5_apr1_encode p s := rfl
  rw [e1, e2]
  simp

/-- C1 witness: the round-trip at the repository's own test inputs — the
salt `"xxxxxxxx"` has 8 characters and verification of the formatted
encoding of `"password"` succeeds. -/
theorem verify_format_encode_roundtrip_witness :
    ("xxxxxxxx" : String).data.length = 8 ∧
      verify_apr1_hash
        (format_hash (md5_apr1_encode "password" "xxxxxxxx") "xxxxxxxx")
        "password" = some true :=
  ⟨by decide, verify_format_encode_roundtrip "password" "xxxxxxxx" (by decide)⟩

/-- C2: the APR1 encoding of `"password"`, formatted, yields exactly the two
known vectors of the repository's tests and crate documentation — salt
`"xxxxxxxx"` gives `"$apr1$xxxxxxxx$dxHfLAsjHkDRmG83UXe8K0"` and salt
`"RandSalt"` gives `"$apr1$RandSalt$PgCXHRrkpSt4cbyC2C6bm/"`. -/
theorem apr1_known_vectors :
    format_hash (md5_apr1_encode "password" "xxxxxxxx") "xxxxxxxx" =
      "$apr1$xxxxxxxx$dxHfLAsjHkDRmG83UXe8K0" ∧
    format_hash (md5_apr1_encode "password" "RandSalt") "RandSalt" =
      "$apr1$RandSalt$PgCXHRrkpSt4cbyC2C6bm/" :=
  ⟨by decide, by decide⟩

/-- Grounding vector for the SHA-1 and base64 models: the digest of
`"password"` encodes to the value stored in the repository's test fixture
(`sha1_test` line). -/
theorem sha1_base64_password_vector :
    base64_encode (sha1Digest (strBytes "password")) =
      "W6ph5Mm5Pz8GgiULbPgzG37mj9g=" := by decide

/-- Grounding vector for the MD5 model: the RFC 1321 test digest of
`"abc"`. -/
theorem md5_abc_vector :
    md5Digest (strBytes "abc") =
      [0x90, 0x01, 0x50, 0x98, 0x3c, 0xd2, 0x4f, 0xb0,
       0xd6, 0x96, 0x3f, 0x7d, 0x28, 0xe1, 0x7f, 0x72] := by decide
